import Mathlib

/-!
Shallow embedding of the Innovation Combination & Idea Generation Engine
(`src/generator/idea_generator.py`) of the `idea_creater` repository.

Numeric scores are Python floats in the source; they are modelled as exact
rationals (ℚ), which is faithful for every arithmetic operation the engine
performs (sums of two elements, division by a list length, fixed rational
factors 0.8 / 1.2 / 2).

External effects are modelled as explicit parameters:
* the two AI-client attributes and the DeepSeek key of `IdeaGenerator.__init__`
  become a `ClientConfig` of three booleans (client present / key set);
* the collaborator call (`call_ai` / the SDK calls) becomes an
  `Except String String` value (`error` = the call raised);
* `json.loads` plus the per-field defaulting loop of
  `_parse_ai_generation_result` become a `jsonDecode` function parameter
  (`none` = the JSON step raised, which the source catches and turns into []).

A Python statement that raises is modelled by `Except.error`; in particular the
`sum(...) / len(ideas)` expressions of `_generate_analysis_summary` raise
`ZeroDivisionError` when `ideas` is empty, so that function returns
`Except String String`.
-/

/-- Decidable equality of `Except` outcomes (not provided by core). -/
instance {ε α : Type} [DecidableEq ε] [DecidableEq α] : DecidableEq (Except ε α) := fun a b =>
  match a, b with
  | Except.error x, Except.error y =>
    if h : x = y then Decidable.isTrue (congrArg Except.error h)
    else Decidable.isFalse (fun hc => h (Except.error.inj hc))
  | Except.error _, Except.ok _ => Decidable.isFalse (fun hc => Except.noConfusion hc)
  | Except.ok _, Except.error _ => Decidable.isFalse (fun hc => Except.noConfusion hc)
  | Except.ok x, Except.ok y =>
    if h : x = y then Decidable.isTrue (congrArg Except.ok h)
    else Decidable.isFalse (fun hc => h (Except.ok.inj hc))

namespace IdeaGen

/-- `InnovationPoint` dataclass of `src/extractor/innovation_extractor.py`. -/
structure InnovationPoint where
  title : String
  description : String
  category : String
  impact : String
  methodology : String
  novelty_score : ℚ
  confidence : ℚ
  deriving DecidableEq

/-- `ExtractedInnovations` dataclass of `src/extractor/innovation_extractor.py`.
The untyped `extraction_metadata: Dict` is modelled as a string association
list; the engine never reads it. -/
structure ExtractedInnovations where
  paper_title : String
  paper_id : String
  innovations : List InnovationPoint
  summary : String
  extraction_metadata : List (String × String)
  deriving DecidableEq

/-- `GeneratedIdea` dataclass of `src/generator/idea_generator.py`. -/
structure GeneratedIdea where
  title : String
  description : String
  source_innovations : List String
  combination_type : String
  feasibility_score : ℚ
  novelty_score : ℚ
  impact_potential : ℚ
  implementation_path : String
  research_directions : List String
  deriving DecidableEq

/-- The `generation_metadata` dict built by `generate_ideas_from_innovations`. -/
structure GenerationMetadata where
  total_innovations : Nat
  total_papers : Nat
  generation_method : String
  deriving DecidableEq

/-- `IdeaGenerationResult` dataclass of `src/generator/idea_generator.py`. -/
structure IdeaGenerationResult where
  topic : String
  generated_ideas : List GeneratedIdea
  analysis_summary : String
  generation_metadata : GenerationMetadata
  deriving DecidableEq

/-- The AI-client state set up by `IdeaGenerator.__init__`: whether
`self.openai_client` is non-None, whether `self.anthropic_client` is non-None,
and whether `settings.DEEPSEEK_API_KEY` is truthy. -/
structure ClientConfig where
  openai : Bool
  anthropic : Bool
  deepseek : Bool
  deriving DecidableEq

/-- One step of the grouping loop of `_generate_combination_ideas`
(`categories[category].append(innovation)` on a Python dict, which keeps
first-seen key order and per-key append order). -/
def addToGroups (groups : List (String × List InnovationPoint)) (p : InnovationPoint) :
    List (String × List InnovationPoint) :=
  match groups with
  | [] => [(p.category, [p])]
  | (c, ps) :: rest =>
    if c = p.category then (c, ps ++ [p]) :: rest
    else (c, ps) :: addToGroups rest p

/-- The grouping loop of `_generate_combination_ideas` over all innovations. -/
def groupByCategory (points : List InnovationPoint) : List (String × List InnovationPoint) :=
  points.foldl addToGroups []

/-- `itertools.combinations(l, 2)`: all unordered pairs `(l[i], l[j])`, `i < j`,
in lexicographic index order. -/
def pairs {α : Type} : List α → List (α × α)
  | [] => []
  | x :: xs => (xs.map fun y => (x, y)) ++ pairs xs

/-- `IdeaGenerator._create_combination_idea`. Python's `desc[:100]` slices by
code points, modelled as a 100-character `List Char` take. -/
def createCombinationIdea (innovations : List InnovationPoint)
    (combination_type : String) : Option GeneratedIdea :=
  if innovations.length < 2 then none
  else
    let avg_novelty := (innovations.map (·.novelty_score)).sum / (innovations.length : ℚ)
    let avg_confidence := (innovations.map (·.confidence)).sum / (innovations.length : ℚ)
    let titles := innovations.map (·.title)
    let descriptions := innovations.map (·.description)
    let combined_title := "Combined: " ++ String.intercalate " + " (titles.take 2)
    let combined_description := "结合了以下创新点：\n" ++ String.intercalate "\n"
      ((titles.zip descriptions).map fun td =>
        "- " ++ td.1 ++ ": " ++ (td.2.toList.take 100).asString ++ "...")
    some {
      title := combined_title
      description := combined_description
      source_innovations := titles
      combination_type := combination_type
      feasibility_score := avg_confidence * (4/5)
      novelty_score := avg_novelty * (6/5)
      impact_potential := avg_novelty * avg_confidence
      implementation_path := "需要进一步研究和实验验证"
      research_directions := titles.map fun t => "结合" ++ t ++ "的方法"
    }

/-- The intra-category loop body of `_generate_combination_ideas`: for one
category's point list, the first 10 `itertools.combinations` pairs each become
an `intra_category` idea (`if idea:` keeps only non-None results). -/
def intraCategoryIdeas (category_innovations : List InnovationPoint) : List GeneratedIdea :=
  if category_innovations.length ≥ 2 then
    ((pairs category_innovations).take 10).filterMap
      fun c => createCombinationIdea [c.1, c.2] "intra_category"
  else []

/-- The inner cross-category loops of `_generate_combination_ideas` for one
pair of categories: first 3 points of each (`[:3]`), full nested product. -/
def crossPairIdeas (innovations1 innovations2 : List InnovationPoint) : List GeneratedIdea :=
  (innovations1.take 3).flatMap fun inv1 =>
    (innovations2.take 3).filterMap fun inv2 =>
      createCombinationIdea [inv1, inv2] "cross_category"

/-- The cross-category pass of `_generate_combination_ideas`: guarded by
`len(categories) >= 2`, it visits category pairs in `i < j` order over the
dict's insertion order (modelled by `pairs` over the grouping's entry list,
whose keys are distinct). -/
def crossCategoryIdeas (categories : List (String × List InnovationPoint)) :
    List GeneratedIdea :=
  if categories.length ≥ 2 then
    (pairs categories).flatMap fun cc => crossPairIdeas cc.1.2 cc.2.2
  else []

/-- `IdeaGenerator._generate_combination_ideas`: the intra-category ideas (in
category insertion order) followed by the cross-category ideas. The `topic`
argument is unused in the source as well. -/
def generateCombinationIdeas (innovations : List InnovationPoint)
    (_topic : String) : List GeneratedIdea :=
  let categories := groupByCategory innovations
  (categories.flatMap fun c => intraCategoryIdeas c.2) ++ crossCategoryIdeas categories

/-- The `{...}` span extracted by `_parse_ai_generation_result`:
`result_text[result_text.find('{') : result_text.rfind('}') + 1]`. -/
def jsonSpan (s : String) : String :=
  let cs := s.toList
  let start := cs.findIdx (· = '{')
  let stop := cs.length - 1 - (cs.reverse.findIdx (· = '}'))
  ((cs.drop start).take (stop + 1 - start)).asString

/-- `IdeaGenerator._parse_ai_generation_result`. `find` returning -1 or
`rfind` returning -1 (so `json_end == 0`) means no `\x7b...\x7d` span: the
function logs and returns []. Otherwise `json.loads` plus the field-defaulting
loop run inside the `try`; a raise there is caught and yields [] — both are
modelled by `jsonDecode` returning `none`. -/
def parseAIGenerationResult (jsonDecode : String → Option (List GeneratedIdea))
    (result_text : String) : List GeneratedIdea :=
  if result_text.toList.contains '{' && result_text.toList.contains '}' then
    match jsonDecode (jsonSpan result_text) with
    | some ideas => ideas
    | none => []
  else []

/-- `IdeaGenerator._generate_ai_ideas`. The provider dispatch of the source is
reproduced as written: the `if not self.openai_client:` branch calls
`self.openai_client.chat...` — a None dereference that raises and is caught by
the enclosing handler, yielding []; likewise `elif not self.anthropic_client:`.
Only when both clients exist and the DeepSeek key is set does the DeepSeek call
run; its raise (`Except.error`) is caught, yielding []. The prompt built from
`innovations[:20]` only feeds the collaborator, whose reply is the
`deepseekResponse` parameter. -/
def generateAIIdeas (cfg : ClientConfig)
    (jsonDecode : String → Option (List GeneratedIdea))
    (deepseekResponse : Except String String)
    (_innovations : List InnovationPoint) (_topic : String) : List GeneratedIdea :=
  if !cfg.openai && !cfg.anthropic && !cfg.deepseek then []
  else if !cfg.openai then []
  else if !cfg.anthropic then []
  else if cfg.deepseek then
    match deepseekResponse with
    | Except.error _ => []
    | Except.ok result_text => parseAIGenerationResult jsonDecode result_text
  else []

/-- `idea.impact_potential = (idea.novelty_score + idea.feasibility_score) / 2`,
the per-idea mutation performed by `_filter_and_rank_ideas`. -/
def recomputeImpact (idea : GeneratedIdea) : GeneratedIdea :=
  { idea with impact_potential := (idea.novelty_score + idea.feasibility_score) / 2 }

/-- Stable descending insertion by `impact_potential` (the element being
inserted comes earlier in the original list than everything already inserted,
so it goes in front of equal scores). -/
def insertByImpactDesc (x : GeneratedIdea) : List GeneratedIdea → List GeneratedIdea
  | [] => [x]
  | y :: ys =>
    if y.impact_potential ≤ x.impact_potential then x :: y :: ys
    else y :: insertByImpactDesc x ys

/-- `ideas.sort(key=lambda x: x.impact_potential, reverse=True)`: Python's sort
is stable, and with `reverse=True` equal keys keep their original order; this
insertion sort has exactly those properties (proved below). -/
def sortByImpactDesc : List GeneratedIdea → List GeneratedIdea
  | [] => []
  | x :: xs => insertByImpactDesc x (sortByImpactDesc xs)

/-- `IdeaGenerator._filter_and_rank_ideas`: recompute every
`impact_potential`, stable-sort descending, keep the first 20. -/
def filterAndRankIdeas (ideas : List GeneratedIdea) : List GeneratedIdea :=
  (sortByImpactDesc (ideas.map recomputeImpact)).take 20

/-- One step of the counting loops of `_generate_analysis_summary`
(`d[k] = d.get(k, 0) + 1` on an insertion-ordered dict). -/
def bumpCount (counts : List (String × Nat)) (k : String) : List (String × Nat) :=
  match counts with
  | [] => [(k, 1)]
  | (c, n) :: rest => if c = k then (c, n + 1) :: rest else (c, n) :: bumpCount rest k

/-- Rendering of a count dict inside the summary f-string (text shape
abstracted; no claim depends on it). -/
def renderCounts (counts : List (String × Nat)) : String :=
  String.intercalate ", " (counts.map fun cn => cn.1 ++ ": " ++ toString cn.2)

/-- `IdeaGenerator._generate_analysis_summary`. The f-string evaluates
`sum(idea.novelty_score for idea in ideas) / len(ideas)` (and the same for
feasibility): with an empty `ideas` list this raises `ZeroDivisionError`, hence
the `Except`. The exact decimal formatting (`:.2f`) is abstracted to
`toString`; no claim depends on the rendered text. -/
def generateAnalysisSummary (innovations : List InnovationPoint)
    (ideas : List GeneratedIdea) : Except String String :=
  let categories := (innovations.map (·.category)).foldl bumpCount []
  let combination_types := (ideas.map (·.combination_type)).foldl bumpCount []
  if ideas.length = 0 then Except.error "ZeroDivisionError"
  else
    let avg_nov := (ideas.map (·.novelty_score)).sum / (ideas.length : ℚ)
    let avg_feas := (ideas.map (·.feasibility_score)).sum / (ideas.length : ℚ)
    Except.ok ("分析总结：共分析了 " ++ toString innovations.length ++ " 个创新点；生成了 "
      ++ toString ideas.length ++ " 个新想法；创新点类别分布：" ++ renderCounts categories
      ++ "；想法类型分布：" ++ renderCounts combination_types
      ++ "；平均新颖性评分：" ++ toString avg_nov
      ++ "；平均可行性评分：" ++ toString avg_feas)

/-- `IdeaGenerator.generate_ideas_from_innovations`. `Except.ok none` models
`return None`; `Except.error` models an uncaught raise inside the call. -/
def generateIdeasFromInnovations (cfg : ClientConfig)
    (jsonDecode : String → Option (List GeneratedIdea))
    (deepseekResponse : Except String String)
    (innovations_list : List ExtractedInnovations) (topic : String) :
    Except String (Option IdeaGenerationResult) :=
  let all_innovations := innovations_list.flatMap (·.innovations)
  if all_innovations.isEmpty then Except.ok none
  else
    let combined_ideas := generateCombinationIdeas all_innovations topic
    let ai_generated_ideas :=
      generateAIIdeas cfg jsonDecode deepseekResponse all_innovations topic
    let all_ideas := combined_ideas ++ ai_generated_ideas
    let filtered_ideas := filterAndRankIdeas all_ideas
    match generateAnalysisSummary all_innovations filtered_ideas with
    | Except.error e => Except.error e
    | Except.ok s =>
      Except.ok (some {
        topic := topic
        generated_ideas := filtered_ideas
        analysis_summary := s
        generation_metadata := {
          total_innovations := all_innovations.length
          total_papers := innovations_list.length
          generation_method := "combination_and_ai" } })

/-- Observation helper: the idea list of a normal, non-absent outcome
(`[]` for an absent result or a raise). -/
def resultIdeas (e : Except String (Option IdeaGenerationResult)) : List GeneratedIdea :=
  match e with
  | Except.ok (some r) => r.generated_ideas
  | _ => []

/-! ### Concrete fixtures -/

/-- Innovation point A of the spec's §8 scenario: `cat=X, nov=0.8, conf=0.9`. -/
def pA : InnovationPoint :=
  ⟨"A", "descA", "X", "impactA", "methodA", 4/5, 9/10⟩

/-- Innovation point B of the spec's §8 scenario: `cat=X, nov=0.9, conf=0.85`. -/
def pB : InnovationPoint :=
  ⟨"B", "descB", "X", "impactB", "methodB", 9/10, 17/20⟩

/-- Innovation point C of the spec's §8 scenario: `cat=Y, nov=0.7, conf=0.8`. -/
def pC : InnovationPoint :=
  ⟨"C", "descC", "Y", "impactC", "methodC", 7/10, 4/5⟩

/-- The two `InnovationSet`s of the spec's §8 scenario. -/
def scenarioSets : List ExtractedInnovations :=
  [⟨"Paper 1", "1111.0001", [pA, pB], "s1", []⟩,
   ⟨"Paper 2", "2222.0002", [pC], "s2", []⟩]

/-- Client state with no AI client configured (the external source contributes
zero ideas: the `_generate_ai_ideas` guard returns [] at once). -/
def cfgNone : ClientConfig := ⟨false, false, false⟩

/-- Client state with both clients and the DeepSeek key configured. -/
def cfgAll : ClientConfig := ⟨true, true, true⟩

/-- A JSON decoder that always fails (any `json.loads` on the span raises). -/
def jdNone : String → Option (List GeneratedIdea) := fun _ => none

/-- "Algorithm A" of the repository's own test fixture
(`tests/test_idea_generator.py`, `setup_method`): `nov=0.8, conf=0.9`. -/
def algoA : InnovationPoint :=
  ⟨"Algorithm A", "A novel algorithm for classification", "算法创新",
   "Improves accuracy by 15%", "Deep learning", 4/5, 9/10⟩

/-- "Architecture B" of the repository's own test fixture: `nov=0.9, conf=0.85`. -/
def archB : InnovationPoint :=
  ⟨"Architecture B", "A new neural network architecture", "架构创新",
   "Reduces training time by 30%", "Attention mechanism", 9/10, 17/20⟩

/-- A single-paper input holding the two test-fixture points. -/
def fixtureSets : List ExtractedInnovations :=
  [⟨"Paper 1", "1234.5678", [algoA, archB], "Paper 1 summary", []⟩]

/-- A one-innovation input: one category with one point yields no
combination ideas at all. -/
def soloSets : List ExtractedInnovations :=
  [⟨"Solo Paper", "3333.0003", [pA], "solo summary", []⟩]

/-- The single (cross-category) idea `generate` produces on the test fixture
input, written out field by field. -/
def fixtureIdea : GeneratedIdea :=
  ⟨"Combined: Algorithm A + Architecture B",
   "结合了以下创新点：\n- Algorithm A: A novel algorithm for classification...\n- Architecture B: A new neural network architecture...",
   ["Algorithm A", "Architecture B"], "cross_category", 7/10, 51/50, 43/50,
   "需要进一步研究和实验验证",
   ["结合Algorithm A的方法", "结合Architecture B的方法"]⟩


/-- A sample externally-decoded idea (used to show that a configured decoder
still yields nothing when a provider is missing). -/
def sampleAIIdea : GeneratedIdea :=
  ⟨"AI Generated Idea", "desc", ["A"], "ai_generated", 2/5, 9/10, 17/20, "path", ["dir"]⟩

/-- A JSON decoder that always succeeds with one idea. -/
def jdSome : String → Option (List GeneratedIdea) := fun _ => some [sampleAIIdea]

/-! ### Helper lemmas about the stable sort -/

theorem mem_insertByImpactDesc {a x : GeneratedIdea} {l : List GeneratedIdea} :
    a ∈ insertByImpactDesc x l ↔ a = x ∨ a ∈ l := by
  induction l with
  | nil => simp [insertByImpactDesc]
  | cons y ys ih =>
    simp only [insertByImpactDesc]
    by_cases h : y.impact_potential ≤ x.impact_potential
    · rw [if_pos h]
      simp [List.mem_cons]
    · rw [if_neg h]
      simp only [List.mem_cons, ih]
      tauto

theorem mem_sortByImpactDesc {a : GeneratedIdea} {l : List GeneratedIdea} :
    a ∈ sortByImpactDesc l ↔ a ∈ l := by
  induction l with
  | nil => simp [sortByImpactDesc]
  | cons x xs ih => simp [sortByImpactDesc, mem_insertByImpactDesc, ih]

theorem length_insertByImpactDesc (x : GeneratedIdea) (l : List GeneratedIdea) :
    (insertByImpactDesc x l).length = l.length + 1 := by
  induction l with
  | nil => rfl
  | cons y ys ih =>
    simp only [insertByImpactDesc]
    by_cases h : y.impact_potential ≤ x.impact_potential
    · rw [if_pos h]
      rfl
    · rw [if_neg h]
      simp [ih]

theorem length_sortByImpactDesc (l : List GeneratedIdea) :
    (sortByImpactDesc l).length = l.length := by
  induction l with
  | nil => rfl
  | cons x xs ih => simp [sortByImpactDesc, length_insertByImpactDesc, ih]

theorem pairwise_insertByImpactDesc {x : GeneratedIdea} {l : List GeneratedIdea}
    (hl : l.Pairwise fun a b => b.impact_potential ≤ a.impact_potential) :
    (insertByImpactDesc x l).Pairwise fun a b => b.impact_potential ≤ a.impact_potential := by
  induction l with
  | nil => simp [insertByImpactDesc]
  | cons y ys ih =>
    rw [List.pairwise_cons] at hl
    obtain ⟨hy, hys⟩ := hl
    simp only [insertByImpactDesc]
    by_cases h : y.impact_potential ≤ x.impact_potential
    · rw [if_pos h]
      refine List.Pairwise.cons ?_ (List.Pairwise.cons hy hys)
      intro b hb
      rcases List.mem_cons.mp hb with rfl | hb
      · exact h
      · exact le_trans (hy b hb) h
    · rw [if_neg h]
      refine List.Pairwise.cons ?_ (ih hys)
      intro b hb
      rcases mem_insertByImpactDesc.mp hb with rfl | hb
      · exact le_of_not_le h
      · exact hy b hb

theorem pairwise_sortByImpactDesc (l : List GeneratedIdea) :
    (sortByImpactDesc l).Pairwise fun a b => b.impact_potential ≤ a.impact_potential := by
  induction l with
  | nil => simp [sortByImpactDesc]
  | cons x xs ih => exact pairwise_insertByImpactDesc ih

/-- Stability of the insertion, score class by score class: the inserted
element (which stood earlier in the original list than everything already
inserted) lands in front of its equals. -/
theorem filter_insertByImpactDesc (x : GeneratedIdea) (l : List GeneratedIdea) (q : ℚ) :
    (insertByImpactDesc x l).filter (fun i => decide (i.impact_potential = q))
      = if x.impact_potential = q
        then x :: l.filter (fun i => decide (i.impact_potential = q))
        else l.filter (fun i => decide (i.impact_potential = q)) := by
  induction l with
  | nil =>
    by_cases hx : x.impact_potential = q
    · simp [insertByImpactDesc, hx]
    · simp [insertByImpactDesc, hx]
  | cons y ys ih =>
    simp only [insertByImpactDesc]
    by_cases h : y.impact_potential ≤ x.impact_potential
    · rw [if_pos h]
      by_cases hx : x.impact_potential = q
      · simp [List.filter_cons, hx]
      · simp [List.filter_cons, hx]
    · rw [if_neg h]
      by_cases hy : y.impact_potential = q
      · have hx : ¬ x.impact_potential = q := by
          intro hx
          exact h (le_of_eq (hy.trans hx.symm))
        simp [List.filter_cons, hy, hx, ih]
      · by_cases hx : x.impact_potential = q
        · simp [List.filter_cons, hy, hx, ih]
        · simp [List.filter_cons, hy, hx, ih]

theorem filter_sortByImpactDesc (l : List GeneratedIdea) (q : ℚ) :
    (sortByImpactDesc l).filter (fun i => decide (i.impact_potential = q))
      = l.filter (fun i => decide (i.impact_potential = q)) := by
  induction l with
  | nil => rfl
  | cons x xs ih =>
    simp only [sortByImpactDesc, filter_insertByImpactDesc, List.filter_cons, ih]
    by_cases hx : x.impact_potential = q
    · simp [hx]
    · simp [hx]

/-- Every idea of the ranked output is the impact-recomputation of an input
idea (ranking permutes and truncates, it does not alter fields further). -/
theorem exists_recompute_of_mem_filterAndRank {i : GeneratedIdea} {l : List GeneratedIdea}
    (h : i ∈ filterAndRankIdeas l) : ∃ j ∈ l, i = recomputeImpact j := by
  have h1 : i ∈ sortByImpactDesc (l.map recomputeImpact) :=
    (List.take_sublist _ _).subset h
  have h2 : i ∈ l.map recomputeImpact := mem_sortByImpactDesc.mp h1
  obtain ⟨j, hj, hji⟩ := List.mem_map.mp h2
  exact ⟨j, hj, hji.symm⟩

/-! ### Helper lemmas about pair enumeration and idea construction -/

/-- A two-element pair list always passes the `len < 2` guard. -/
theorem createCombinationIdea_pair_isSome (a b : InnovationPoint) (t : String) :
    ∃ i, createCombinationIdea [a, b] t = some i :=
  ⟨_, rfl⟩

theorem length_filterMap_createPair (L : List (InnovationPoint × InnovationPoint)) (t : String) :
    (L.filterMap fun c => createCombinationIdea [c.1, c.2] t).length = L.length := by
  induction L with
  | nil => rfl
  | cons c cs ih =>
    obtain ⟨i, hi⟩ := createCombinationIdea_pair_isSome c.1 c.2 t
    rw [List.filterMap_cons, hi, List.length_cons, ih, List.length_cons]

theorem length_filterMap_createWith (a : InnovationPoint) (L : List InnovationPoint) (t : String) :
    (L.filterMap fun b => createCombinationIdea [a, b] t).length = L.length := by
  induction L with
  | nil => rfl
  | cons b bs ih =>
    obtain ⟨i, hi⟩ := createCombinationIdea_pair_isSome a b t
    rw [List.filterMap_cons, hi, List.length_cons, ih, List.length_cons]

theorem pairs_nil_of_short {α : Type} (l : List α) (h : l.length < 2) :
    pairs l = [] := by
  match l with
  | [] => rfl
  | [x] => rfl
  | x :: y :: ys => simp at h; omega

theorem length_pairs {α : Type} (l : List α) :
    (pairs l).length = l.length.choose 2 := by
  induction l with
  | nil => rfl
  | cons x xs ih =>
    simp only [pairs, List.length_append, List.length_map, List.length_cons, ih,
      Nat.choose_succ_succ, Nat.choose_one_right]

/-- Interchange of a dependent filterMap and the pair enumeration: the nested
cross-category loops are the filterMap of the `(first 3) × (first 3)` product. -/
theorem flatMap_filterMap_eq_product_filterMap {α β γ : Type} (f : α → β → Option γ)
    (L1 : List α) (L2 : List β) :
    (L1.flatMap fun a => L2.filterMap fun b => f a b)
      = (L1.product L2).filterMap fun ab => f ab.1 ab.2 := by
  induction L1 with
  | nil => rfl
  | cons a as ih =>
    have hp : (a :: as).product L2 = L2.map (Prod.mk a) ++ as.product L2 := by
      simp [List.product, List.flatMap_cons]
    rw [List.flatMap_cons, hp, List.filterMap_append, List.filterMap_map, ih]
    rfl

/-! ### Helper lemmas about the orchestrator -/

/-- `generate` on an input with no innovation points at all returns the absent
result (`None`). -/
theorem generate_none_of_empty (cfg : ClientConfig)
    (jd : String → Option (List GeneratedIdea)) (resp : Except String String)
    (sets : List ExtractedInnovations) (topic : String)
    (h : sets.flatMap (·.innovations) = []) :
    generateIdeasFromInnovations cfg jd resp sets topic = Except.ok none := by
  unfold generateIdeasFromInnovations
  rw [if_pos]
  rw [h]
  rfl

theorem summary_ok_of_ne_nil (innovations : List InnovationPoint)
    {ideas : List GeneratedIdea} (h : ideas ≠ []) :
    ∃ s, generateAnalysisSummary innovations ideas = Except.ok s := by
  unfold generateAnalysisSummary
  rw [if_neg]
  · exact ⟨_, rfl⟩
  · simpa [List.length_eq_zero] using h

theorem summary_error_of_nil (innovations : List InnovationPoint) :
    generateAnalysisSummary innovations [] = Except.error "ZeroDivisionError" :=
  rfl

/-- When the flattened collection is non-empty and the final ranked list is
non-empty, `generate` returns a present result carrying exactly that list. -/
theorem generate_ok_of_final_ne_nil (cfg : ClientConfig)
    (jd : String → Option (List GeneratedIdea)) (resp : Except String String)
    (sets : List ExtractedInnovations) (topic : String)
    (hne : sets.flatMap (·.innovations) ≠ [])
    (hfin : filterAndRankIdeas
        (generateCombinationIdeas (sets.flatMap (·.innovations)) topic
          ++ generateAIIdeas cfg jd resp (sets.flatMap (·.innovations)) topic) ≠ []) :
    ∃ r, generateIdeasFromInnovations cfg jd resp sets topic = Except.ok (some r)
      ∧ r.generated_ideas = filterAndRankIdeas
          (generateCombinationIdeas (sets.flatMap (·.innovations)) topic
            ++ generateAIIdeas cfg jd resp (sets.flatMap (·.innovations)) topic) := by
  unfold generateIdeasFromInnovations
  rw [if_neg (by simpa [List.isEmpty_iff] using hne)]
  obtain ⟨s, hs⟩ := summary_ok_of_ne_nil (sets.flatMap (·.innovations)) hfin
  simp only [hs]
  exact ⟨_, rfl, rfl⟩

/-- When the flattened collection is non-empty but the final ranked list is
empty, the analysis summary divides by zero: `generate` raises. -/
theorem generate_error_of_final_nil (cfg : ClientConfig)
    (jd : String → Option (List GeneratedIdea)) (resp : Except String String)
    (sets : List ExtractedInnovations) (topic : String)
    (hne : sets.flatMap (·.innovations) ≠ [])
    (hfin : filterAndRankIdeas
        (generateCombinationIdeas (sets.flatMap (·.innovations)) topic
          ++ generateAIIdeas cfg jd resp (sets.flatMap (·.innovations)) topic) = []) :
    generateIdeasFromInnovations cfg jd resp sets topic
      = Except.error "ZeroDivisionError" := by
  unfold generateIdeasFromInnovations
  rw [if_neg (by simpa [List.isEmpty_iff] using hne)]
  simp only [hfin, summary_error_of_nil]

/-- Inversion: a present result's idea list is the ranked merge of the
deterministic and the external ideas. -/
theorem generated_ideas_of_ok {cfg : ClientConfig}
    {jd : String → Option (List GeneratedIdea)} {resp : Except String String}
    {sets : List ExtractedInnovations} {topic : String} {r : IdeaGenerationResult}
    (hr : generateIdeasFromInnovations cfg jd resp sets topic = Except.ok (some r)) :
    r.generated_ideas = filterAndRankIdeas
        (generateCombinationIdeas (sets.flatMap (·.innovations)) topic
          ++ generateAIIdeas cfg jd resp (sets.flatMap (·.innovations)) topic) := by
  unfold generateIdeasFromInnovations at hr
  by_cases he : (sets.flatMap (·.innovations)).isEmpty
  · rw [if_pos he] at hr
    exact absurd (Except.ok.inj hr) (by simp)
  · rw [if_neg he] at hr
    rcases hsum : generateAnalysisSummary (sets.flatMap (·.innovations))
        (filterAndRankIdeas
          (generateCombinationIdeas (sets.flatMap (·.innovations)) topic
            ++ generateAIIdeas cfg jd resp (sets.flatMap (·.innovations)) topic)) with e | s
    · simp only [hsum] at hr
      exact Except.noConfusion hr
    · simp only [hsum] at hr
      have hrec := Option.some.inj (Except.ok.inj hr)
      rw [← hrec]

/-! ### Helper lemmas about the cross-category pass and the AI step -/

theorem length_crossPairIdeas (A B : List InnovationPoint) :
    (crossPairIdeas A B).length = min A.length 3 * min B.length 3 := by
  have h : ∀ A' : List InnovationPoint,
      (A'.flatMap fun inv1 => (B.take 3).filterMap fun inv2 =>
        createCombinationIdea [inv1, inv2] "cross_category").length
      = A'.length * (B.take 3).length := by
    intro A'
    induction A' with
    | nil => simp
    | cons a as ih =>
      simp only [List.flatMap_cons, List.length_append, ih,
        length_filterMap_createWith, List.length_cons]
      ring
  unfold crossPairIdeas
  rw [h, List.length_take, List.length_take, Nat.min_comm 3 A.length,
    Nat.min_comm 3 B.length]

theorem length_flatMap_crossPair
    (L : List ((String × List InnovationPoint) × (String × List InnovationPoint))) :
    (L.flatMap fun cc => crossPairIdeas cc.1.2 cc.2.2).length
      = (L.map fun cc => min cc.1.2.length 3 * min cc.2.2.length 3).sum := by
  induction L with
  | nil => rfl
  | cons x xs ih =>
    simp only [List.flatMap_cons, List.length_append, List.map_cons, List.sum_cons,
      ih, length_crossPairIdeas]

theorem aiIdeas_empty_of_missing_provider (cfg : ClientConfig)
    (jd : String → Option (List GeneratedIdea)) (resp : Except String String)
    (innovations : List InnovationPoint) (topic : String)
    (h : cfg.openai = false ∨ cfg.anthropic = false ∨ cfg.deepseek = false) :
    generateAIIdeas cfg jd resp innovations topic = [] := by
  obtain ⟨o, a, d⟩ := cfg
  cases o <;> cases a <;> cases d <;> simp_all [generateAIIdeas]

theorem aiIdeas_empty_of_bad_resp (cfg : ClientConfig)
    (jd : String → Option (List GeneratedIdea)) (resp : Except String String)
    (innovations : List InnovationPoint) (topic : String)
    (h : ∀ t, resp = Except.ok t →
      (t.toList.contains '{' && t.toList.contains '}') = false
        ∨ jd (jsonSpan t) = none) :
    generateAIIdeas cfg jd resp innovations topic = [] := by
  obtain ⟨o, a, d⟩ := cfg
  rcases resp with e | t
  · cases o <;> cases a <;> cases d <;> rfl
  · have ht := h t rfl
    cases o <;> cases a <;> cases d <;>
      first
        | rfl
        | (show parseAIGenerationResult jd t = []
           unfold parseAIGenerationResult
           rcases ht with ht | ht
           · rw [ht]
             rfl
           · by_cases hb : (t.toList.contains '{' && t.toList.contains '}') = true
             · rw [if_pos hb, ht]
             · rw [if_neg hb])

/-- The combination pass on an empty flattened collection yields nothing. -/
theorem combination_ideas_nil :
    ∀ topic, generateCombinationIdeas [] topic = [] :=
  fun _ => rfl

theorem filterAndRank_ne_nil_of_ne_nil {l : List GeneratedIdea} (h : l ≠ []) :
    filterAndRankIdeas l ≠ [] := by
  intro h0
  apply h
  have hlen := congrArg List.length h0
  unfold filterAndRankIdeas at hlen
  rw [List.length_take, length_sortByImpactDesc, List.length_map,
    List.length_nil] at hlen
  rcases Nat.min_eq_zero_iff.mp hlen with h20 | hl
  · exact absurd h20 (by omega)
  · exact List.length_eq_zero.mp hl

/-! ### Theorems for the claims -/

/-- C4 (counterexample): on the spec's §8 scenario — sets `[A(cat=X, nov=0.8,
conf=0.9), B(cat=X, nov=0.9, conf=0.85)]` and `[C(cat=Y, nov=0.7, conf=0.8)]`,
topic "ml", external source contributing zero ideas — `generate` does NOT
return exactly 2 ideas. -/
theorem scenario_not_two_ideas :
    (resultIdeas (generateIdeasFromInnovations cfgNone jdNone
      (Except.error "stub") scenarioSets "ml")).length ≠ 2 :=
  of_decide_eq_true (by with_unfolding_all rfl)

/-- C4 (amended): on the spec's §8 scenario the engine returns exactly 3
generated ideas — one `intra_category` idea from A+B and two `cross_category`
ideas, A+C and B+C (category X contributes its first 3 = both of its points to
the cross pass) — all with `impact_potential` recomputed as the mean of the
recomputed novelty and feasibility, sorted descending (0.86, 0.81, 0.79). -/
theorem scenario_three_ideas :
    (resultIdeas (generateIdeasFromInnovations cfgNone jdNone
        (Except.error "stub") scenarioSets "ml")).map
        (fun i => (i.combination_type, i.source_innovations, i.impact_potential,
                   i.novelty_score, i.feasibility_score))
      = [("intra_category", ["A", "B"], 43/50, 51/50, 7/10),
         ("cross_category", ["B", "C"], 81/100, 24/25, 33/50),
         ("cross_category", ["A", "C"], 79/100, 9/10, 17/25)] :=
  of_decide_eq_true (by with_unfolding_all rfl)

/-- C5 (counterexample): for the pair (A, B) with average novelty 17/20 and
average confidence 7/8, `_create_combination_idea` sets the provisional
`impact_potential` to their product 119/160 = 0.74375, which differs from the
mean (17/20 + 7/8) / 2 = 0.8625 that the claim states. -/
theorem provisional_impact_not_mean :
    (createCombinationIdea [pA, pB] "intra_category").map (·.impact_potential)
        = some (119/160)
      ∧ ((119 : ℚ)/160) ≠ ((17/20 : ℚ) + 7/8) / 2 :=
  And.intro (of_decide_eq_true (by with_unfolding_all rfl))
    (of_decide_eq_true (by with_unfolding_all rfl))

/-- C5 (amended): when a pair (a, b) is turned into a `GeneratedIdea`, its
provisional `impact_potential` is the PRODUCT of the pair's average novelty
score and average confidence, `avg_novelty * avg_confidence` (later overwritten
by the merge step). -/
theorem provisional_impact_is_product (a b : InnovationPoint) (t : String) :
    (createCombinationIdea [a, b] t).map (·.impact_potential)
      = some (((a.novelty_score + b.novelty_score) / 2)
              * ((a.confidence + b.confidence) / 2)) := by
  simp only [createCombinationIdea, List.length_cons, List.length_nil, List.map_cons,
    List.map_nil, List.sum_cons, List.sum_nil, Option.map_some]
  norm_num

/-- C6 (code bug): on the repository's own test fixture (novelty scores 0.8
and 0.9, both in [0,1]), `_create_combination_idea` produces
`novelty_score = 0.85 * 1.2 = 1.02 > 1`, and that unclamped value survives to
the final `generated_ideas` of `generate` — contradicting the repository's own
test `test_create_combination_idea_success`, which asserts
`0 <= idea.novelty_score <= 1` on exactly this pair. -/
theorem final_novelty_exceeds_one :
    (createCombinationIdea [algoA, archB] "test_type").map (·.novelty_score)
        = some (51/50)
      ∧ (resultIdeas (generateIdeasFromInnovations cfgNone jdNone
          (Except.error "stub") fixtureSets "Machine Learning Applications")).map
          (·.novelty_score) = [51/50]
      ∧ ¬ ((51 : ℚ)/50 ≤ 1) :=
  And.intro (of_decide_eq_true (by with_unfolding_all rfl))
    (And.intro (of_decide_eq_true (by with_unfolding_all rfl))
      (of_decide_eq_true (by with_unfolding_all rfl)))

/-- C1 (counterexample): a valid non-empty input (one paper with one
innovation point) on which the final ranked idea list is empty makes
`generate` raise `ZeroDivisionError` inside `_generate_analysis_summary`
instead of returning a result with zero-valued/"N/A" means. -/
theorem generate_single_point_raises :
    generateIdeasFromInnovations cfgNone jdNone
      (Except.error "AI client unavailable") soloSets "quantum computing"
      = Except.error "ZeroDivisionError" :=
  of_decide_eq_true (by with_unfolding_all rfl)

/-- C1 (amended): for an empty flattened innovation collection `generate`
returns the absent result; for a non-empty flattened collection it returns a
present result exactly when the final ranked idea list is non-empty, and
raises `ZeroDivisionError` (from the summary's mean computation) when the
final ranked idea list is empty. -/
theorem generate_presence_trichotomy (cfg : ClientConfig)
    (jd : String → Option (List GeneratedIdea)) (resp : Except String String)
    (sets : List ExtractedInnovations) (topic : String) :
    (sets.flatMap (·.innovations) = [] →
      generateIdeasFromInnovations cfg jd resp sets topic = Except.ok none)
    ∧ (sets.flatMap (·.innovations) ≠ [] →
        filterAndRankIdeas
            (generateCombinationIdeas (sets.flatMap (·.innovations)) topic
              ++ generateAIIdeas cfg jd resp (sets.flatMap (·.innovations)) topic) ≠ [] →
        ∃ r, generateIdeasFromInnovations cfg jd resp sets topic = Except.ok (some r))
    ∧ (sets.flatMap (·.innovations) ≠ [] →
        filterAndRankIdeas
            (generateCombinationIdeas (sets.flatMap (·.innovations)) topic
              ++ generateAIIdeas cfg jd resp (sets.flatMap (·.innovations)) topic) = [] →
        generateIdeasFromInnovations cfg jd resp sets topic
          = Except.error "ZeroDivisionError") := by
  refine ⟨generate_none_of_empty cfg jd resp sets topic, ?_,
    generate_error_of_final_nil cfg jd resp sets topic⟩
  intro hne hfin
  obtain ⟨r, hr, _⟩ := generate_ok_of_final_ne_nil cfg jd resp sets topic hne hfin
  exact ⟨r, hr⟩

/-- C1 (witness): concrete instances of the first and the third branch. -/
theorem generate_presence_trichotomy_witness :
    generateIdeasFromInnovations cfgNone jdNone (Except.error "stub") [] "ml"
        = Except.ok none
      ∧ generateIdeasFromInnovations cfgNone jdNone (Except.error "stub") soloSets "ml"
        = Except.error "ZeroDivisionError" :=
  ⟨(generate_presence_trichotomy cfgNone jdNone (Except.error "stub") [] "ml").1 rfl,
   (generate_presence_trichotomy cfgNone jdNone (Except.error "stub") soloSets "ml").2.2
     (of_decide_eq_true (by with_unfolding_all rfl))
     (of_decide_eq_true (by with_unfolding_all rfl))⟩

/-- C2: after merge/rank, every idea of the final `generated_ideas` sequence
of a present result carries `impact_potential = (novelty_score +
feasibility_score) / 2`, whatever value it held before the merge. -/
theorem final_impact_is_mean (cfg : ClientConfig)
    (jd : String → Option (List GeneratedIdea)) (resp : Except String String)
    (sets : List ExtractedInnovations) (topic : String) (i : GeneratedIdea)
    (hi : i ∈ resultIdeas (generateIdeasFromInnovations cfg jd resp sets topic)) :
    i.impact_potential = (i.novelty_score + i.feasibility_score) / 2 := by
  rcases hgen : generateIdeasFromInnovations cfg jd resp sets topic with e | o
  · rw [hgen] at hi
    simp [resultIdeas] at hi
  · rcases o with _ | r
    · rw [hgen] at hi
      simp [resultIdeas] at hi
    · rw [hgen] at hi
      have hi2 : i ∈ r.generated_ideas := hi
      rw [generated_ideas_of_ok hgen] at hi2
      obtain ⟨j, _, rfl⟩ := exists_recompute_of_mem_filterAndRank hi2
      rfl

/-- C2 (witness): the single idea of the fixture run satisfies the
recomputation equation. -/
theorem final_impact_is_mean_witness :
    fixtureIdea.impact_potential
      = (fixtureIdea.novelty_score + fixtureIdea.feasibility_score) / 2 :=
  final_impact_is_mean cfgNone jdNone (Except.error "stub") fixtureSets
    "Machine Learning Applications" fixtureIdea
    (by with_unfolding_all exact List.Mem.head _)

/-- C3: the merge/rank step is the stable descending sort of the
deterministic-then-external concatenation (after recomputing every
`impact_potential`), truncated to 20: the output is sorted non-increasingly,
each equal-score class is an order-preserving prefix of the concatenation's
equal-score class (deterministic before external), at most 20 ideas survive,
and an empty input yields an empty output. -/
theorem merge_rank_stable (det ext : List GeneratedIdea) :
    filterAndRankIdeas (det ++ ext)
        = (sortByImpactDesc ((det ++ ext).map recomputeImpact)).take 20
      ∧ (filterAndRankIdeas (det ++ ext)).Pairwise
          (fun a b => b.impact_potential ≤ a.impact_potential)
      ∧ (∀ q : ℚ, ∃ rest,
          (filterAndRankIdeas (det ++ ext)).filter
              (fun i => decide (i.impact_potential = q)) ++ rest
            = ((det ++ ext).map recomputeImpact).filter
                (fun i => decide (i.impact_potential = q)))
      ∧ (filterAndRankIdeas (det ++ ext)).length ≤ 20
      ∧ filterAndRankIdeas ([] : List GeneratedIdea) = [] := by
  refine ⟨rfl, ?_, ?_, ?_, rfl⟩
  · exact List.Pairwise.sublist (List.take_sublist _ _) (pairwise_sortByImpactDesc _)
  · intro q
    refine ⟨((sortByImpactDesc ((det ++ ext).map recomputeImpact)).drop 20).filter
      (fun i => decide (i.impact_potential = q)), ?_⟩
    rw [← filter_sortByImpactDesc ((det ++ ext).map recomputeImpact) q]
    unfold filterAndRankIdeas
    rw [← List.filter_append, List.take_append_drop]
  · unfold filterAndRankIdeas
    rw [List.length_take]
    exact min_le_left _ _

/-- C7: the intra-category pass takes, per category, the first 10 pairs of the
`itertools.combinations` enumeration (each of which yields an idea, so the
per-category contribution has length `min C(n,2) 10`, never more than 10, and
the pair enumeration has exactly `n choose 2` entries). -/
theorem intra_category_cap (l : List InnovationPoint) :
    intraCategoryIdeas l
        = ((pairs l).take 10).filterMap
            (fun c => createCombinationIdea [c.1, c.2] "intra_category")
      ∧ (intraCategoryIdeas l).length = min (pairs l).length 10
      ∧ (intraCategoryIdeas l).length ≤ 10
      ∧ (pairs l).length = l.length.choose 2 := by
  have h1 : intraCategoryIdeas l
      = ((pairs l).take 10).filterMap
          (fun c => createCombinationIdea [c.1, c.2] "intra_category") := by
    unfold intraCategoryIdeas
    by_cases h : l.length ≥ 2
    · rw [if_pos h]
    · rw [if_neg h]
      rw [pairs_nil_of_short l (by omega)]
      rfl
  have h2 : (intraCategoryIdeas l).length = min (pairs l).length 10 := by
    rw [h1, length_filterMap_createPair, List.length_take, Nat.min_comm]
  exact ⟨h1, h2, by rw [h2]; exact min_le_right _ _, length_pairs l⟩

/-- C8: the cross-category pass only pairs the first 3 points of each
category, as the full product (never absent), so each category pair
contributes exactly `min |c₁| 3 * min |c₂| 3 ≤ 9` ideas; overall the pass
visits category pairs in `i < j` insertion order, and fewer than 2 categories
contribute nothing. -/
theorem cross_category_cap (l1 l2 : List InnovationPoint)
    (cats : List (String × List InnovationPoint))
    (c : String × List InnovationPoint) :
    crossPairIdeas l1 l2
        = ((l1.take 3).product (l2.take 3)).filterMap
            (fun ab => createCombinationIdea [ab.1, ab.2] "cross_category")
      ∧ (crossPairIdeas l1 l2).length = min l1.length 3 * min l2.length 3
      ∧ (crossPairIdeas l1 l2).length ≤ 9
      ∧ (crossCategoryIdeas cats).length
          = ((pairs cats).map fun cc => min cc.1.2.length 3 * min cc.2.2.length 3).sum
      ∧ crossCategoryIdeas [] = [] ∧ crossCategoryIdeas [c] = [] := by
  refine ⟨?_, length_crossPairIdeas l1 l2, ?_, ?_, rfl, rfl⟩
  · unfold crossPairIdeas
    exact flatMap_filterMap_eq_product_filterMap
      (fun a b => createCombinationIdea [a, b] "cross_category") _ _
  · rw [length_crossPairIdeas]
    calc min l1.length 3 * min l2.length 3
        ≤ 3 * 3 := Nat.mul_le_mul (min_le_right _ _) (min_le_right _ _)
      _ = 9 := rfl
  · unfold crossCategoryIdeas
    by_cases hc : cats.length ≥ 2
    · rw [if_pos hc]
      exact length_flatMap_crossPair (pairs cats)
    · rw [if_neg hc]
      match cats, hc with
      | [], _ => rfl
      | [c], _ => rfl
      | a :: b :: rest, hc => exact absurd (by simp) hc

/-- C9: a collaborator failure — client unavailable, call raising, or reply
text with no parseable `\x7b...\x7d` JSON span, i.e. lacking one of the two
braces or having a span on which the JSON step fails — yields exactly zero
external ideas, no exception escapes the AI step, and whenever the
deterministic combination list is non-empty, `generate` returns a present
result consisting exactly of the ranked deterministic ideas. -/
theorem collaborator_failure_recovered (cfg : ClientConfig)
    (jd : String → Option (List GeneratedIdea)) (resp : Except String String)
    (sets : List ExtractedInnovations) (topic : String)
    (hfail : (cfg.openai = false ∨ cfg.anthropic = false ∨ cfg.deepseek = false)
      ∨ ∀ t, resp = Except.ok t →
          (t.toList.contains '{' && t.toList.contains '}') = false
            ∨ jd (jsonSpan t) = none) :
    generateAIIdeas cfg jd resp (sets.flatMap (·.innovations)) topic = []
    ∧ (generateCombinationIdeas (sets.flatMap (·.innovations)) topic ≠ [] →
        ∃ r, generateIdeasFromInnovations cfg jd resp sets topic = Except.ok (some r)
          ∧ r.generated_ideas = filterAndRankIdeas
              (generateCombinationIdeas (sets.flatMap (·.innovations)) topic)) := by
  have hai : generateAIIdeas cfg jd resp (sets.flatMap (·.innovations)) topic = [] := by
    rcases hfail with h | h
    · exact aiIdeas_empty_of_missing_provider cfg jd resp _ topic h
    · exact aiIdeas_empty_of_bad_resp cfg jd resp _ topic h
  refine ⟨hai, ?_⟩
  intro hcomb
  have hne : sets.flatMap (·.innovations) ≠ [] := by
    intro h0
    apply hcomb
    rw [h0]
    exact combination_ideas_nil topic
  have hfin : filterAndRankIdeas
      (generateCombinationIdeas (sets.flatMap (·.innovations)) topic
        ++ generateAIIdeas cfg jd resp (sets.flatMap (·.innovations)) topic) ≠ [] := by
    rw [hai, List.append_nil]
    exact filterAndRank_ne_nil_of_ne_nil hcomb
  obtain ⟨r, hr, hre⟩ := generate_ok_of_final_ne_nil cfg jd resp sets topic hne hfin
  rw [hai, List.append_nil] at hre
  exact ⟨r, hr, hre⟩

/-- C9 (witness): with both clients and the key configured, both failure
shapes — a brace-free reply under a working decoder, and a brace-containing
reply whose span the JSON step rejects — contribute zero external ideas, and
the §8 scenario still yields exactly its ranked deterministic ideas. -/
theorem collaborator_failure_recovered_witness :
    generateAIIdeas cfgAll jdSome (Except.ok "no json span here")
        (scenarioSets.flatMap (·.innovations)) "ml" = []
      ∧ generateAIIdeas cfgAll jdNone (Except.ok "\x7b not json \x7d")
        (scenarioSets.flatMap (·.innovations)) "ml" = []
      ∧ resultIdeas (generateIdeasFromInnovations cfgAll jdSome
            (Except.ok "no json span here") scenarioSets "ml")
        = filterAndRankIdeas
            (generateCombinationIdeas (scenarioSets.flatMap (·.innovations)) "ml") := by
  have h := collaborator_failure_recovered cfgAll jdSome (Except.ok "no json span here")
    scenarioSets "ml"
    (Or.inr (fun t ht => by cases ht; exact Or.inl rfl))
  have h2 := collaborator_failure_recovered cfgAll jdNone
    (Except.ok "\x7b not json \x7d") scenarioSets "ml"
    (Or.inr (fun t ht => by cases ht; exact Or.inr rfl))
  refine ⟨h.1, h2.1, ?_⟩
  obtain ⟨r, hr, hre⟩ := h.2 (of_decide_eq_true (by with_unfolding_all rfl))
  rw [show resultIdeas (generateIdeasFromInnovations cfgAll jdSome
      (Except.ok "no json span here") scenarioSets "ml")
    = r.generated_ideas by rw [hr]; rfl]
  exact hre

/-- C9 (counterexample): on a one-innovation input with every provider
configured, a raising collaborator leads `generate` to raise
`ZeroDivisionError` (the empty final list reaches the summary), so for this
input no result is returned at all — had the collaborator instead replied with
at least one parseable idea, `generate` would have returned normally. -/
theorem solo_external_failure_aborts :
    generateIdeasFromInnovations cfgAll jdSome (Except.error "boom") soloSets "ml"
        = Except.error "ZeroDivisionError"
      ∧ (resultIdeas (generateIdeasFromInnovations cfgAll jdSome
          (Except.ok "\x7b\x7d") soloSets "ml")).length = 1 :=
  And.intro (of_decide_eq_true (by with_unfolding_all rfl))
    (of_decide_eq_true (by with_unfolding_all rfl))

/-- C10: the provider dispatch of `_generate_ai_ideas` is inverted
(`if not self.openai_client:` dereferences the absent OpenAI client,
`elif not self.anthropic_client:` the absent Anthropic client; both raise and
are swallowed), so unless the OpenAI client AND the Anthropic client AND the
DeepSeek key are all configured, the step returns []; only the all-configured
state reaches the DeepSeek call and the reply parser. -/
theorem ai_ideas_need_all_providers (cfg : ClientConfig)
    (jd : String → Option (List GeneratedIdea)) (resp : Except String String)
    (innovations : List InnovationPoint) (topic : String)
    (h : cfg.openai = false ∨ cfg.anthropic = false ∨ cfg.deepseek = false) :
    generateAIIdeas cfg jd resp innovations topic = []
    ∧ ∀ t, generateAIIdeas ⟨true, true, true⟩ jd (Except.ok t) innovations topic
        = parseAIGenerationResult jd t :=
  ⟨aiIdeas_empty_of_missing_provider cfg jd resp innovations topic h,
   fun _ => rfl⟩

/-- C10 (witness): with only the OpenAI client missing — a working decoder, a
well-formed reply, the other client and the key present — the step still
contributes nothing. -/
theorem ai_ideas_need_all_providers_witness :
    generateAIIdeas ⟨false, true, true⟩ jdSome (Except.ok "reply") [pA] "ml" = [] :=
  (ai_ideas_need_all_providers ⟨false, true, true⟩ jdSome (Except.ok "reply") [pA] "ml"
    (Or.inl rfl)).1

end IdeaGen
